import Mathlib

/-!
Verification development for the budgetfly expense-tracking client.

The repository's own code (`frontend/app/add.tsx`, `frontend/app/index.tsx`)
is a React Native client: form validation, request-body construction, and
form reset are translated here directly from that source.  The backend it
talks to (Expense Ledger store, Member Registry, Summary Aggregator) is not
part of the repository; those operations are modelled from the spec and are
marked as such in their doc comments.

JavaScript string coercions (`String.prototype.trim`, `parseFloat`,
`parseInt` without radix) are modelled over `List Char`; `parseFloat` /
`parseInt` return `Option` with `none` standing for JavaScript `NaN`
(the models cover decimal/hex numeric literals with sign and exponent;
`Infinity` literals are not modelled).
-/

/-- Payment type: the closed two-valued enum `'cash' | 'online'` from
`BudgetItem.payment_type` in `index.tsx`. -/
inductive PaymentType
  | cash
  | online
deriving DecidableEq, Repr

/-- The `BudgetItem` interface of `index.tsx` (an Expense Ledger entry).
`price` is modelled as `ℚ` (a JS `number` produced by `parseFloat`),
`quantity` as `Int` (produced by `parseInt(quantity) || 1`, which can be
negative). -/
structure BudgetItem where
  id : String
  item_name : String
  price : ℚ
  quantity : Int
  recipient : String
  payment_type : PaymentType
  paid_by : String
  created_at : String
deriving DecidableEq, Repr

/-- The `Summary` interface of `index.tsx`: the four derived totals. -/
structure Summary where
  total_amount : ℚ
  total_items : Nat
  cash_total : ℚ
  online_total : ℚ
deriving DecidableEq, Repr

/-- An item's contribution to the totals: `price * quantity`. -/
def itemAmount (it : BudgetItem) : ℚ :=
  it.price * (it.quantity : ℚ)

/-! ## JavaScript string coercions -/

/-- Whitespace recognised by the JS trim / numeric-parsing routines
(space, tab, line terminators, vertical tab, form feed). -/
def isJsWhitespace (c : Char) : Bool :=
  c = ' ' || c = '\t' || c = '\n' || c = '\r' || c = '\x0b' || c = '\x0c'

/-- JS `String.prototype.trim`: drop leading and trailing whitespace. -/
def jsTrim (s : String) : String :=
  String.mk (((s.data.dropWhile isJsWhitespace).reverse.dropWhile isJsWhitespace).reverse)

/-- Consume an optional leading sign; returns (isNegative, rest). -/
def parseSign : List Char → Bool × List Char
  | '-' :: rest => (true, rest)
  | '+' :: rest => (false, rest)
  | cs => (false, cs)

/-- Value of a decimal digit string (most significant first). -/
def natOfDigits (cs : List Char) : Nat :=
  cs.foldl (fun acc c => acc * 10 + (c.toNat - 48)) 0

/-- Exponent value after the `e`/`E` marker: optional sign then digits;
an exponent with no digits is not part of the parsed prefix, so it
contributes 0. -/
def parseExpTail (cs : List Char) : Int :=
  let p := parseSign cs
  let ds := p.2.takeWhile Char.isDigit
  if ds.isEmpty then 0
  else if p.1 then -(natOfDigits ds : Int) else (natOfDigits ds : Int)

/-- Optional exponent part of a JS float literal. -/
def parseExp : List Char → Int
  | 'e' :: rest => parseExpTail rest
  | 'E' :: rest => parseExpTail rest
  | _ => 0

/-- JS `parseFloat` on a character list: skip whitespace, optional sign,
longest prefix `digits [. digits] [e|E [sign] digits]`; `none` is `NaN`
(no digit in the mantissa).  The value of the prefix
`±I.F e E` is `± (I·10^|F| + F) · 10^(E − |F|)`, built here with integer
arithmetic and one `mkRat`. -/
def parseFloatChars (cs : List Char) : Option ℚ :=
  let cs1 := cs.dropWhile isJsWhitespace
  let p := parseSign cs1
  let intDs := p.2.takeWhile Char.isDigit
  let cs3 := p.2.dropWhile Char.isDigit
  let q :=
    match cs3 with
    | '.' :: rest => (rest.takeWhile Char.isDigit, rest.dropWhile Char.isDigit)
    | _ => (([] : List Char), cs3)
  if intDs.isEmpty && q.1.isEmpty then none
  else
    let n : Nat := natOfDigits intDs * 10 ^ q.1.length + natOfDigits q.1
    let sn : Int := if p.1 then -(n : Int) else (n : Int)
    let d : Int := parseExp q.2 - (q.1.length : Int)
    some (if 0 ≤ d then mkRat (sn * (10 : Int) ^ d.toNat) 1 else mkRat sn ((10 : Nat) ^ (-d).toNat))

/-- JS `parseFloat(s)`; `none` stands for `NaN`. -/
def jsParseFloat (s : String) : Option ℚ :=
  parseFloatChars s.data

/-- Hexadecimal digit test for `parseInt`'s `0x` form. -/
def isHexDigitChar (c : Char) : Bool :=
  c.isDigit || ('a' ≤ c && c ≤ 'f') || ('A' ≤ c && c ≤ 'F')

/-- Value of a hexadecimal digit. -/
def hexVal (c : Char) : Nat :=
  if c.isDigit then c.toNat - 48
  else if 'a' ≤ c && c ≤ 'f' then c.toNat - 87
  else c.toNat - 55

/-- Value of a hexadecimal digit string (most significant first). -/
def natOfHexDigits (cs : List Char) : Nat :=
  cs.foldl (fun acc c => acc * 16 + hexVal c) 0

/-- JS `parseInt` (no radix argument) on a character list: skip
whitespace, optional sign, then either a `0x`/`0X` hexadecimal digit
prefix or a decimal digit prefix; `none` is `NaN` (no digits). -/
def parseIntChars (cs : List Char) : Option Int :=
  let cs1 := cs.dropWhile isJsWhitespace
  let p := parseSign cs1
  match p.2 with
  | '0' :: c :: rest =>
    if c = 'x' || c = 'X' then
      let ds := rest.takeWhile isHexDigitChar
      if ds.isEmpty then none
      else some (if p.1 then -(natOfHexDigits ds : Int) else (natOfHexDigits ds : Int))
    else
      let ds := ('0' :: c :: rest).takeWhile Char.isDigit
      some (if p.1 then -(natOfDigits ds : Int) else (natOfDigits ds : Int))
  | _ =>
    let ds := p.2.takeWhile Char.isDigit
    if ds.isEmpty then none
    else some (if p.1 then -(natOfDigits ds : Int) else (natOfDigits ds : Int))

/-- JS `parseInt(s)`; `none` stands for `NaN`. -/
def jsParseInt (s : String) : Option Int :=
  parseIntChars s.data

/-- The client's `parseInt(quantity) || 1` coercion: JS `||` replaces the
falsy values `NaN` and `0` by 1 and keeps any other parsed integer. -/
def orElseOne (r : Option Int) : Int :=
  match r with
  | none => 1
  | some n => if n = 0 then 1 else n

/-! ## Client form logic (`AddItemScreen.handleSubmit` in `add.tsx`) -/

/-- Form state of `AddItemScreen` in `add.tsx`: the six `useState` fields. -/
structure AddFormState where
  itemName : String
  price : String
  quantity : String
  recipient : String
  paymentType : PaymentType
  paidBy : String
deriving DecidableEq, Repr

/-- The form fields whose checks in `handleSubmit` can fail. -/
inductive FormField
  | itemName
  | price
  | recipient
  | paidBy
deriving DecidableEq, Repr

/-- Position of each validated field in the validation order
`item_name, price, quantity, recipient, paid_by, payment_type`
(quantity and payment_type, at positions 2 and 5, have no check that can
fail: quantity is always coerced and payment_type is typed as the enum). -/
def fieldOrder : FormField → Nat
  | FormField.itemName => 0
  | FormField.price => 1
  | FormField.recipient => 3
  | FormField.paidBy => 4

/-- The price guard of `handleSubmit`: `!price || parseFloat(price) <= 0`.
An empty string is falsy; a `NaN` result of `parseFloat` (`none`)
compares false against 0, so it does not fail the check. -/
def priceCheckFails (price : String) : Bool :=
  price = "" ||
    (match jsParseFloat price with
     | some q => decide (q ≤ 0)
     | none => false)

/-- The failure predicate of each field's check in `handleSubmit`
(lines 59–74 of `add.tsx`). -/
def checkFails (f : AddFormState) : FormField → Bool
  | FormField.itemName => jsTrim f.itemName = ""
  | FormField.price => priceCheckFails f.price
  | FormField.recipient => jsTrim f.recipient = ""
  | FormField.paidBy => jsTrim f.paidBy = ""

/-- Validation cascade of `handleSubmit`: the four early-return `if`s in
source order; yields the field named by the first alert that fires. -/
def firstInvalidField (f : AddFormState) : Option FormField :=
  if jsTrim f.itemName = "" then some FormField.itemName
  else if priceCheckFails f.price then some FormField.price
  else if jsTrim f.recipient = "" then some FormField.recipient
  else if jsTrim f.paidBy = "" then some FormField.paidBy
  else none

/-- The JSON body POSTed to `/api/items` by `handleSubmit`
(lines 83–90 of `add.tsx`).  `price : Option ℚ` because
`parseFloat(price)` can be `NaN` (`none`). -/
structure ItemRequestBody where
  item_name : String
  price : Option ℚ
  quantity : Int
  recipient : String
  payment_type : PaymentType
  paid_by : String
deriving DecidableEq, Repr

/-- Model of `handleSubmit`: `none` when a validation alert fires (the function
returns early and no request is issued); otherwise the request body
built at lines 83–90 of `add.tsx`. -/
def handleSubmit (f : AddFormState) : Option ItemRequestBody :=
  match firstInvalidField f with
  | some _ => none
  | none => some
      { item_name := jsTrim f.itemName
        price := jsParseFloat f.price
        quantity := orElseOne (jsParseInt f.quantity)
        recipient := jsTrim f.recipient
        payment_type := f.paymentType
        paid_by := jsTrim f.paidBy }

/-- The form reset in the success callback of `handleSubmit`
(lines 99–102 of `add.tsx`): `setItemName('')`, `setPrice('')`,
`setQuantity('1')`, `setRecipient('')`; `paymentType` and `paidBy`
are not touched. -/
def resetForm (f : AddFormState) : AddFormState :=
  { f with itemName := "", price := "", quantity := "1", recipient := "" }

/-- The client `addMember` of the members screen in `add.tsx`
(lines 475–505): alerts and sends nothing when the typed name trims to
empty, otherwise POSTs `{name: newMemberName.trim()}`. -/
def clientAddMember (newMemberName : String) : Option String :=
  if jsTrim newMemberName = "" then none
  else some (jsTrim newMemberName)

/-! ## Backend model

The backend behind the HTTP API is not part of the repository; the
following operations are modelled from the spec (§3–§4, §7). -/

/-- Modelled from the spec (§4.2): the request fields the backend
`addItem` validation can report. -/
inductive RequestField
  | item_name
  | price
  | recipient
  | paid_by
deriving DecidableEq, Repr

/-- Modelled from the spec (§7): errors of the item API. -/
inductive ItemApiError
  | validationFailed (fld : RequestField)
  | notFound
deriving DecidableEq, Repr

/-- Modelled from the spec (§7): errors of the member API. -/
inductive MemberApiError
  | validationEmptyName
deriving DecidableEq, Repr

/-- Outcome of a delete call: not-found is a distinct, recoverable,
reportable condition (§4.1, §4.2). -/
inductive DeleteResult
  | deleted
  | notFound
deriving DecidableEq, Repr

/-- Modelled from the spec (§4.2, §6): an `addItem` request as the
backend sees it; `quantity` is optional, to be coerced server-side. -/
structure AddItemRequest where
  item_name : String
  price : ℚ
  quantity : Option Int
  recipient : String
  payment_type : PaymentType
  paid_by : String
deriving DecidableEq, Repr

/-- Modelled from the spec (§4.2): backend `quantity` is "coerced to
positive integer defaulting to 1 if omitted/invalid". -/
def coerceQuantity (q : Option Int) : Int :=
  match q with
  | some n => if 1 ≤ n then n else 1
  | none => 1

/-- Modelled from the spec (§4.2): the backend `addItem` validation,
reporting the first failing field in the order item_name, price,
quantity, recipient, paid_by, payment_type (quantity is always coerced
and payment_type is the typed enum, so neither can fail). -/
def validateAddItem (req : AddItemRequest) : Option RequestField :=
  if req.item_name = "" then some RequestField.item_name
  else if req.price ≤ 0 then some RequestField.price
  else if req.recipient = "" then some RequestField.recipient
  else if req.paid_by = "" then some RequestField.paid_by
  else none

/-- Modelled from the spec (§2, §3): the Expense Ledger store.  `nextId`
generates fresh opaque ids, `now` is the creation timestamp attached to
new entries. -/
structure LedgerState where
  nextId : Nat
  now : String
  items : List BudgetItem
deriving DecidableEq, Repr

/-- The empty ledger. -/
def emptyLedger : LedgerState :=
  { nextId := 0, now := "", items := [] }

/-- Modelled from the spec (§4.2): backend `addItem` — validation
failures are rejected before any mutation; on success a new entry with a
fresh id and the current timestamp is stored, newest first. -/
def addItem (req : AddItemRequest) (s : LedgerState) : Except ItemApiError LedgerState :=
  match validateAddItem req with
  | some fld => Except.error (ItemApiError.validationFailed fld)
  | none => Except.ok
      { nextId := s.nextId + 1
        now := s.now
        items :=
          { id := toString s.nextId
            item_name := req.item_name
            price := req.price
            quantity := coerceQuantity req.quantity
            recipient := req.recipient
            payment_type := req.payment_type
            paid_by := req.paid_by
            created_at := s.now } :: s.items }

/-- Modelled from the spec (§4.2, §8): backend `deleteItem` removes the
entry with the given id; a miss is reported as a distinct, recoverable
not-found result. -/
def deleteItem (id : String) (s : LedgerState) : DeleteResult × LedgerState :=
  (if s.items.any (fun it => it.id = id) then DeleteResult.deleted else DeleteResult.notFound,
   { s with items := s.items.filter (fun it => decide (it.id ≠ id)) })

/-- A client-initiated mutation of the Expense Ledger. -/
inductive LedgerOp
  | add (req : AddItemRequest)
  | del (id : String)

/-- Modelled from the spec (§7): apply one operation; failed calls leave
the ledger unchanged (no partial writes). -/
def applyOp (s : LedgerState) (op : LedgerOp) : LedgerState :=
  match op with
  | LedgerOp.add req =>
    match addItem req s with
    | Except.ok s2 => s2
    | Except.error _ => s
  | LedgerOp.del id => (deleteItem id s).2

/-- Ledger state after a sequence of operations from the empty ledger. -/
def applyOps (ops : List LedgerOp) : LedgerState :=
  ops.foldl applyOp emptyLedger

/-! ## Summary Aggregator (modelled from the spec, §4.3) -/

/-- Modelled from the spec (§4.3): one accumulation step of the Summary
Aggregator's scan over the ledger. -/
def addToSummary (s : Summary) (it : BudgetItem) : Summary :=
  { total_amount := s.total_amount + itemAmount it
    total_items := s.total_items + 1
    cash_total :=
      if it.payment_type = PaymentType.cash then s.cash_total + itemAmount it else s.cash_total
    online_total :=
      if it.payment_type = PaymentType.online then s.online_total + itemAmount it else s.online_total }

/-- Modelled from the spec (§4.3): `computeSummary()` scans the full
Expense Ledger and produces the four derived fields; pure function of
the ledger state, recomputed every call. -/
def computeSummary (items : List BudgetItem) : Summary :=
  items.foldl addToSummary { total_amount := 0, total_items := 0, cash_total := 0, online_total := 0 }

/-- Spec section 3: `total_amount` = sum over all items of `price * quantity`. -/
def totalAmount (items : List BudgetItem) : ℚ :=
  (items.map itemAmount).sum

/-- Spec section 3: `cash_total` = the same sum restricted to cash items. -/
def cashTotal (items : List BudgetItem) : ℚ :=
  ((items.filter fun it => decide (it.payment_type = PaymentType.cash)).map itemAmount).sum

/-- Spec section 3: `online_total` = the same sum restricted to online items. -/
def onlineTotal (items : List BudgetItem) : ℚ :=
  ((items.filter fun it => decide (it.payment_type = PaymentType.online)).map itemAmount).sum

/-! ## Member Registry (modelled from the spec, §4.1) -/

/-- Modelled from the spec (§3): a Member record; the opaque unique id is
modelled as a natural generated by the registry counter. -/
structure Member where
  id : Nat
  name : String
  created_at : String
deriving DecidableEq, Repr

/-- Modelled from the spec (§2): the Member Registry store. -/
structure Registry where
  nextId : Nat
  now : String
  members : List Member
deriving DecidableEq, Repr

/-- Modelled from the spec (§4.1): backend `addMember(name)` fails with a
ValidationError when `name` trims to empty; otherwise it creates and
returns a new Member with a fresh id and the current timestamp. -/
def addMember (name : String) (r : Registry) : Except MemberApiError (Member × Registry) :=
  if jsTrim name = "" then Except.error MemberApiError.validationEmptyName
  else
    let m : Member := { id := r.nextId, name := name, created_at := r.now }
    Except.ok (m, { r with nextId := r.nextId + 1, members := r.members ++ [m] })

/-- Modelled from the spec (§4.1): backend `deleteMember`, reporting
not-found distinctly; absent ids leave the registry unchanged. -/
def deleteMember (id : Nat) (r : Registry) : DeleteResult × Registry :=
  (if r.members.any (fun m => m.id = id) then DeleteResult.deleted else DeleteResult.notFound,
   { r with members := r.members.filter (fun m => decide (m.id ≠ id)) })

/-- Every stored member id was generated by the counter, hence is below
it.  Holds of the empty registry and is preserved by the operations. -/
def registryWf (r : Registry) : Prop :=
  ∀ m ∈ r.members, m.id < r.nextId

/-- Modelled from the spec (§2, §5): the whole backend state — two
independent collections, items referencing members only by name
snapshot. -/
structure SystemState where
  registry : Registry
  ledger : LedgerState
deriving DecidableEq, Repr

/-- Modelled from the spec (§3, §9): `deleteMember` on the full system;
entries snapshot names as plain strings, so only the Member Registry is
touched. -/
def deleteMemberSys (id : Nat) (s : SystemState) : DeleteResult × SystemState :=
  ((deleteMember id s.registry).1, { s with registry := (deleteMember id s.registry).2 })

/-! ## Helper lemmas -/

/-- The aggregator's scan, started from any accumulator, adds the three
sums and the count of the scanned items to that accumulator. -/
theorem foldl_addToSummary (items : List BudgetItem) (s0 : Summary) :
    items.foldl addToSummary s0 =
      { total_amount := s0.total_amount + totalAmount items
        total_items := s0.total_items + items.length
        cash_total := s0.cash_total + cashTotal items
        online_total := s0.online_total + onlineTotal items } := by
  induction items generalizing s0 with
  | nil =>
    simp [totalAmount, cashTotal, onlineTotal]
  | cons it rest ih =>
    rw [List.foldl_cons, ih]
    cases h : it.payment_type <;>
      simp [addToSummary, totalAmount, cashTotal, onlineTotal, h, List.filter_cons,
        Summary.mk.injEq] <;>
      exact ⟨by ring, by omega, by ring⟩

/-- The aggregator agrees with the spec's four independent sums. -/
theorem computeSummary_spec (items : List BudgetItem) :
    computeSummary items =
      { total_amount := totalAmount items
        total_items := items.length
        cash_total := cashTotal items
        online_total := onlineTotal items } := by
  rw [computeSummary, foldl_addToSummary]
  simp

/-- Every item is cash or online, so the two partial sums add up to the
total. -/
theorem cashTotal_add_onlineTotal (items : List BudgetItem) :
    cashTotal items + onlineTotal items = totalAmount items := by
  induction items with
  | nil => simp [cashTotal, onlineTotal, totalAmount]
  | cons it rest ih =>
    cases h : it.payment_type <;>
      simp [cashTotal, onlineTotal, totalAmount, List.filter_cons, h] at ih ⊢ <;>
      linarith [ih]

/-- Lemma: `orElseOne` never yields 0: JS `x || 1` replaces the falsy values. -/
theorem orElseOne_ne_zero (r : Option Int) : orElseOne r ≠ 0 := by
  cases r with
  | none => simp [orElseOne]
  | some n =>
    by_cases h : n = 0 <;> simp [orElseOne, h]

/-! ## Claims -/

/-- C1: for every sequence of addItem/deleteItem operations starting from
the empty ledger, the summary computed after every operation satisfies
`cash_total + online_total = total_amount` (any such point is the state
`applyOps ops` for the prefix `ops` of operations performed so far). -/
theorem summary_cash_online_invariant (ops : List LedgerOp) :
    (computeSummary (applyOps ops).items).cash_total
        + (computeSummary (applyOps ops).items).online_total
      = (computeSummary (applyOps ops).items).total_amount := by
  rw [computeSummary_spec]
  exact cashTotal_add_onlineTotal (applyOps ops).items

/-- C2: `computeSummary` returns the sum of `price * quantity` over all
items, the item count, and the per-payment-type partial sums; in
particular, a ledger holding exactly one cash item of amount 1000 and one
online item of amount 2000 yields
`{total_amount := 3000, total_items := 2, cash_total := 1000, online_total := 2000}`. -/
theorem computeSummary_correct :
    (∀ items : List BudgetItem,
        computeSummary items =
          { total_amount := totalAmount items
            total_items := items.length
            cash_total := cashTotal items
            online_total := onlineTotal items }) ∧
      ∀ i j : BudgetItem,
        i.payment_type = PaymentType.cash → itemAmount i = 1000 →
        j.payment_type = PaymentType.online → itemAmount j = 2000 →
        computeSummary [i, j] =
          { total_amount := 3000, total_items := 2, cash_total := 1000, online_total := 2000 } := by
  refine ⟨computeSummary_spec, ?_⟩
  intro i j hi hai hj haj
  rw [computeSummary_spec]
  simp [totalAmount, cashTotal, onlineTotal, List.filter_cons, hi, hj, hai, haj]
  norm_num

/-- A concrete cash item of amount 1000. -/
def cashItemW2 : BudgetItem :=
  { id := "1", item_name := "Bricks", price := 1000, quantity := 1, recipient := "ABC Supplier",
    payment_type := PaymentType.cash, paid_by := "Raj", created_at := "t1" }

/-- A concrete online item of amount 2000. -/
def onlineItemW2 : BudgetItem :=
  { id := "2", item_name := "Cement", price := 2000, quantity := 1, recipient := "XYZ Supplier",
    payment_type := PaymentType.online, paid_by := "Raj", created_at := "t2" }

/-- Witness for C2 at a concrete two-item ledger. -/
theorem computeSummary_correct_witness :
    computeSummary [cashItemW2, onlineItemW2] =
      { total_amount := 3000, total_items := 2, cash_total := 1000, online_total := 2000 } :=
  computeSummary_correct.2 cashItemW2 onlineItemW2 rfl
    (by simp [itemAmount, cashItemW2]) rfl (by simp [itemAmount, onlineItemW2])

/-- C7: `deleteMember` leaves the Expense Ledger completely unchanged —
the items list (hence every entry's `paid_by`/`recipient` snapshot) and
the whole derived summary are exactly as before, for every id. -/
theorem deleteMember_preserves_ledger (id : Nat) (s : SystemState) :
    ((deleteMemberSys id s).2.ledger = s.ledger) ∧
      ((deleteMemberSys id s).2.ledger.items.map fun it => (it.paid_by, it.recipient))
        = (s.ledger.items.map fun it => (it.paid_by, it.recipient)) ∧
      computeSummary (deleteMemberSys id s).2.ledger.items = computeSummary s.ledger.items :=
  ⟨rfl, rfl, rfl⟩

/-- A concrete one-item ledger used by the C8 witness. -/
def ledgerW8 : LedgerState :=
  { nextId := 1, now := "t3"
    items := [{ id := "0", item_name := "Sand", price := 250, quantity := 2, recipient := "S",
                payment_type := PaymentType.cash, paid_by := "Raj", created_at := "t0" }] }

/-- C8: `deleteItem` on an id not present in the ledger reports the
recoverable not-found result and returns the ledger exactly unchanged
(in particular `total_items` and every entry are unaltered). -/
theorem deleteItem_absent_id (id : String) (s : LedgerState)
    (h : ∀ it ∈ s.items, it.id ≠ id) :
    deleteItem id s = (DeleteResult.notFound, s) := by
  unfold deleteItem
  have hany : (s.items.any fun it => it.id = id) = false := by
    simp only [List.any_eq_false, decide_eq_true_eq]
    exact h
  have hfilter : (s.items.filter fun it => decide (it.id ≠ id)) = s.items := by
    rw [List.filter_eq_self]
    intro a ha
    simp [h a ha]
  rw [hany, hfilter]
  simp

/-- Witness for C8: deleting the absent id "7" from a one-item ledger. -/
theorem deleteItem_absent_id_witness :
    deleteItem "7" ledgerW8 = (DeleteResult.notFound, ledgerW8) :=
  deleteItem_absent_id "7" ledgerW8 (by decide)

/-- C9: the client's post-success form reset clears only `item_name`,
`price` and `recipient`, restores `quantity` to `"1"`, and keeps the
`payment_type` and `paid_by` selections at their previous values. -/
theorem resetForm_frame (f : AddFormState) :
    resetForm f =
      { itemName := "", price := "", quantity := "1", recipient := "",
        paymentType := f.paymentType, paidBy := f.paidBy } :=
  rfl

/-- C5: a name trimming to empty makes addMember fail with the
ValidationError and perform no mutation (the client sends nothing and the
backend rejects); a name not trimming to empty creates and returns a new
Member with a fresh id (distinct from every stored id) and the current
timestamp, the client sending the trimmed name. -/
theorem addMember_spec (name : String) (r : Registry) (hwf : registryWf r) :
    (jsTrim name = "" →
        clientAddMember name = none ∧
          addMember name r = Except.error MemberApiError.validationEmptyName) ∧
      (jsTrim name ≠ "" →
        clientAddMember name = some (jsTrim name) ∧
          ∃ m r2, addMember name r = Except.ok (m, r2) ∧
            m.name = name ∧ m.created_at = r.now ∧
            (∀ m0 ∈ r.members, m0.id ≠ m.id) ∧
            r2.members = r.members ++ [m] ∧ registryWf r2) := by
  constructor
  · intro h
    exact ⟨by simp [clientAddMember, h], by simp [addMember, h]⟩
  · intro h
    refine ⟨by simp [clientAddMember, h], ?_⟩
    refine ⟨{ id := r.nextId, name := name, created_at := r.now },
      { r with nextId := r.nextId + 1
               members := r.members ++ [{ id := r.nextId, name := name, created_at := r.now }] },
      by simp [addMember, h], rfl, rfl, ?_, rfl, ?_⟩
    · intro m0 hm0
      exact Nat.ne_of_lt (hwf m0 hm0)
    · intro m0 hm0
      rcases List.mem_append.mp hm0 with h1 | h1
      · exact Nat.lt_succ_of_lt (hwf m0 h1)
      · rcases List.mem_singleton.mp h1 with rfl
        exact Nat.lt_succ_self _

/-- The empty registry used by the C5 witness. -/
def regW5 : Registry :=
  { nextId := 0, now := "2024-01-01T00:00:00Z", members := [] }

/-- Witness for C5: a whitespace-only name is rejected on both sides, and
"Raj" is created with id 0 and the registry timestamp. -/
theorem addMember_spec_witness :
    (clientAddMember "   " = none ∧
        addMember "   " regW5 = Except.error MemberApiError.validationEmptyName) ∧
      addMember "Raj" regW5 =
        Except.ok ({ id := 0, name := "Raj", created_at := "2024-01-01T00:00:00Z" },
          { nextId := 1, now := "2024-01-01T00:00:00Z"
            members := [{ id := 0, name := "Raj", created_at := "2024-01-01T00:00:00Z" }] }) :=
  ⟨(addMember_spec "   " regW5 (fun m hm => nomatch hm)).1 (by decide), rfl⟩

/-- A submission with price "abc" (which parses to NaN, so it is not a
string whose parseFloat result is strictly greater than 0) and an empty
recipient. -/
def formW6b : AddFormState :=
  { itemName := "Tea", price := "abc", quantity := "1", recipient := "",
    paymentType := PaymentType.cash, paidBy := "Raj" }

/-- C6 counterexample: under the claim's enumerated checks (price check
"price > 0"), price — at position 1, before recipient at position 3 —
is the earliest failing field of `formW6b`, since parseFloat "abc" is
NaN, not a value > 0; but the code's alert names recipient, because the
source guard `!price || parseFloat(price) <= 0` accepts a NaN parse. -/
theorem first_failing_field_mismatch :
    jsParseFloat "abc" = none ∧
      fieldOrder FormField.price < fieldOrder FormField.recipient ∧
      firstInvalidField formW6b = some FormField.recipient ∧
      firstInvalidField formW6b ≠ some FormField.price := by
  decide

/-- C6 amended: when a submission is invalid, the validation alert names
the first failing field under the order item_name, price, quantity,
recipient, paid_by, payment_type, the checks being the source's:
item_name/recipient/paid_by non-empty after trim, and the price guard
`!price || parseFloat(price) <= 0` (which, unlike "price > 0", accepts a
NaN parse): the reported field's check fails and every check earlier in
the order passes. -/
theorem firstInvalidField_is_first (f : AddFormState) (fld : FormField)
    (h : firstInvalidField f = some fld) :
    checkFails f fld = true ∧
      ∀ g : FormField, fieldOrder g < fieldOrder fld → checkFails f g = false := by
  unfold firstInvalidField at h
  split_ifs at h with h1 h2 h3 h4 <;> cases h
  · exact ⟨by simp [checkFails, h1], fun g hg => by cases g <;> simp [fieldOrder] at hg⟩
  · refine ⟨by simp [checkFails, h2], fun g hg => ?_⟩
    cases g <;> simp [fieldOrder] at hg <;> simp [checkFails, h1]
  · refine ⟨by simp [checkFails, h3], fun g hg => ?_⟩
    cases g <;> simp [fieldOrder] at hg <;> simp [checkFails, h1, h2]
  · refine ⟨by simp [checkFails, h4], fun g hg => ?_⟩
    cases g <;> simp [fieldOrder] at hg <;> simp [checkFails, h1, h2, h3]

/-- A submission with price "0" and an empty recipient: both fail, price
is earlier in the order. -/
def formW6 : AddFormState :=
  { itemName := "Tea", price := "0", quantity := "1", recipient := "",
    paymentType := PaymentType.cash, paidBy := "Raj" }

/-- Witness for C6: on `formW6` the alert names price; the earlier
item_name check passes. -/
theorem firstInvalidField_is_first_witness :
    checkFails formW6 FormField.price = true ∧
      checkFails formW6 FormField.itemName = false :=
  ⟨(firstInvalidField_is_first formW6 FormField.price (by decide)).1,
    (firstInvalidField_is_first formW6 FormField.price (by decide)).2
      FormField.itemName (by decide)⟩

/-- A fully valid submission except that the quantity input is "-5". -/
def formW3 : AddFormState :=
  { itemName := "Bricks", price := "500", quantity := "-5", recipient := "ABC Supplier",
    paymentType := PaymentType.cash, paidBy := "Raj" }

/-- C3 counterexample: with quantity input "-5" the submission passes
validation and the created entry's quantity is the negative integer -5,
refuting "the quantity stored in every created entry is a positive
integer". -/
theorem quantity_negative_passes_through :
    handleSubmit formW3 =
      some { item_name := "Bricks", price := some 500, quantity := -5,
             recipient := "ABC Supplier", payment_type := PaymentType.cash, paid_by := "Raj" } ∧
      ¬ (0 < (-5 : Int)) := by
  decide

/-- C3 amended: the quantity submitted with every issued request is
`parseInt(quantity) || 1` — a nonzero integer, equal to 1 when the input
fails to parse (and when it parses to 0), but passed through unchanged
(possibly negative) when a nonzero value parses. -/
theorem quantity_coercion_amended (f : AddFormState) (req : ItemRequestBody)
    (h : handleSubmit f = some req) :
    req.quantity = orElseOne (jsParseInt f.quantity) ∧
      req.quantity ≠ 0 ∧
      (jsParseInt f.quantity = none → req.quantity = 1) := by
  unfold handleSubmit at h
  cases hv : firstInvalidField f <;> rw [hv] at h
  · cases h
    refine ⟨rfl, orElseOne_ne_zero _, fun hn => ?_⟩
    simp [orElseOne, hn]
  · cases h

/-- A valid submission whose quantity input "abc" fails to parse. -/
def formW3b : AddFormState :=
  { itemName := "Tea", price := "500", quantity := "abc", recipient := "Shop",
    paymentType := PaymentType.cash, paidBy := "Raj" }

/-- The request body `handleSubmit` issues for `formW3b`. -/
def reqW3b : ItemRequestBody :=
  { item_name := "Tea", price := some 500, quantity := 1, recipient := "Shop",
    payment_type := PaymentType.cash, paid_by := "Raj" }

/-- Witness for the amended C3 at the concrete form `formW3b`. -/
theorem quantity_coercion_amended_witness :
    reqW3b.quantity = orElseOne (jsParseInt formW3b.quantity) ∧
      reqW3b.quantity ≠ 0 ∧
      (jsParseInt formW3b.quantity = none → reqW3b.quantity = 1) :=
  quantity_coercion_amended formW3b reqW3b (by decide)

/-- A submission whose price input "abc" parses to NaN, with all other
fields valid. -/
def formW4 : AddFormState :=
  { itemName := "Tea", price := "abc", quantity := "1", recipient := "Shop",
    paymentType := PaymentType.cash, paidBy := "Raj" }

/-- C4 counterexample: a non-empty unparseable price is NOT rejected —
`parseFloat` yields NaN, `NaN <= 0` is false, and the request is issued
(with a NaN price), refuting "empty/unparseable price is rejected before
any mutation". -/
theorem unparseable_price_not_rejected :
    jsParseFloat "abc" = none ∧
      handleSubmit formW4 =
        some { item_name := "Tea", price := none, quantity := 1, recipient := "Shop",
               payment_type := PaymentType.cash, paid_by := "Raj" } := by
  decide

/-- C4 amended: a submission whose price field is empty, or parses to a
value ≤ 0, is rejected before any mutation — `handleSubmit` returns at
the alert and no request is issued, so the ledger is untouched; a
non-empty price on which parseFloat fails (NaN) is not rejected. -/
theorem price_rejection_amended (f : AddFormState)
    (h : f.price = "" ∨ ∃ q, jsParseFloat f.price = some q ∧ q ≤ 0) :
    handleSubmit f = none := by
  have hp : priceCheckFails f.price = true := by
    rcases h with h | ⟨q, hq, hle⟩
    · simp [priceCheckFails, h]
    · simp [priceCheckFails, hq, hle]
  unfold handleSubmit firstInvalidField
  rw [hp]
  split_ifs <;> simp_all

/-- A submission with price "0" and all other fields valid. -/
def formW4b : AddFormState :=
  { itemName := "Tea", price := "0", quantity := "1", recipient := "Shop",
    paymentType := PaymentType.cash, paidBy := "Raj" }

/-- Witness for the amended C4: price "0" parses to 0 ≤ 0 and the
submission is rejected. -/
theorem price_rejection_amended_witness :
    handleSubmit formW4b = none :=
  price_rejection_amended formW4b (Or.inr ⟨0, by decide, by decide⟩)

/-- C10 counterexample: "abc" is non-empty with no parseFloat value
(NaN), hence not a string whose parseFloat result is strictly greater
than 0 — yet the price check accepts it, refuting "accepts exactly those
non-empty input strings whose parseFloat result is strictly greater than
0". -/
theorem price_check_accepts_nan :
    priceCheckFails "abc" = false ∧ jsParseFloat "abc" = none := by
  decide

/-- C10 amended: the price check accepts exactly the non-empty strings
whose parseFloat result is strictly greater than 0 or is NaN (strings
with a numeric prefix such as "12abc" pass via their parsed prefix), and
the price submitted on success is parseFloat of the raw input. -/
theorem price_check_amended :
    (∀ p : String,
        priceCheckFails p = false ↔
          p ≠ "" ∧ (jsParseFloat p = none ∨ ∃ q, jsParseFloat p = some q ∧ 0 < q)) ∧
      ∀ (f : AddFormState) (req : ItemRequestBody),
        handleSubmit f = some req → req.price = jsParseFloat f.price := by
  constructor
  · intro p
    unfold priceCheckFails
    cases hq : jsParseFloat p with
    | none => simp
    | some q => simp [not_le]
  · intro f req h
    unfold handleSubmit at h
    cases hv : firstInvalidField f <;> rw [hv] at h
    · cases h
      rfl
    · cases h

/-- A valid submission with the price input "12abc". -/
def formW10 : AddFormState :=
  { itemName := "Tea", price := "12abc", quantity := "1", recipient := "Shop",
    paymentType := PaymentType.cash, paidBy := "Raj" }

/-- The request body `handleSubmit` issues for `formW10`. -/
def reqW10 : ItemRequestBody :=
  { item_name := "Tea", price := some 12, quantity := 1, recipient := "Shop",
    payment_type := PaymentType.cash, paid_by := "Raj" }

/-- Witness for the amended C10: "12abc" passes the check (parsed prefix
12 > 0) and the submitted price is `parseFloat "12abc"`. -/
theorem price_check_amended_witness :
    priceCheckFails "12abc" = false ∧ reqW10.price = jsParseFloat "12abc" :=
  ⟨(price_check_amended.1 "12abc").mpr ⟨by decide, Or.inr ⟨12, by decide, by decide⟩⟩,
    price_check_amended.2 formW10 reqW10 (by decide)⟩
